import Mathlib

/-!
Verification of the fizzy-mcp request/response translation layer
(src/index.ts) against its specification.

We shallowly embed the Gateway of the MCP server: JavaScript values that
appear as tool arguments and JSON payloads become the inductive `JValue`;
each `FizzyClient` method becomes a Lean function returning
`Except String RequestSpec`, where the `RequestSpec` is the single HTTP
request that method issues (an `Except.error` result means the method threw
before any network call); the response-normalization logic inside
`FizzyClient.request` becomes `normalizeResponse`, parameterized over the
external `JSON.parse` (a function `String → Option JValue`).
-/

/-- JavaScript/JSON values as they flow through the gateway: strings,
numbers, booleans, `null`, arrays, and objects (ordered key-value lists,
keys unique as in JS objects). -/
inductive JValue where
  | str (s : String)
  | num (n : Int)
  | bool (b : Bool)
  | null
  | arr (elems : List JValue)
  | obj (fields : List (String × JValue))

/-- The JS `typeof` operator restricted to the values of `JValue`
(`typeof null` is `"object"`, as is `typeof` of any array or object). -/
def typeOf : JValue → String
  | JValue.str _ => "string"
  | JValue.num _ => "number"
  | JValue.bool _ => "boolean"
  | JValue.null => "object"
  | JValue.arr _ => "object"
  | JValue.obj _ => "object"

/-- JS falsiness for the values of `JValue` (`!args` in the source). -/
def jsFalsy : JValue → Bool
  | JValue.str s => s = ""
  | JValue.num n => n = 0
  | JValue.bool b => !b
  | JValue.null => true
  | JValue.arr _ => false
  | JValue.obj _ => false

/-- First-match lookup in an object field list (JS property access). -/
def lookupField : List (String × JValue) → String → Option JValue
  | [], _ => none
  | (k, v) :: rest, key => if k = key then some v else lookupField rest key

/-- JS property access `value[field]`: defined on objects, `undefined`
(here `none`) on every other value. -/
def jlookup : JValue → String → Option JValue
  | JValue.obj fields, key => lookupField fields key
  | _, _ => none

/-- The single HTTP request a client method issues: method, path relative
to the account scope, and optional JSON body (the argument of
`JSON.stringify` in the source). -/
structure RequestSpec where
  method : String
  path : String
  body : Option JValue

/-- A character allowed by the identifier pattern `/^[a-zA-Z0-9]+$/`. -/
def isIdChar (c : Char) : Bool :=
  (('a' ≤ c && c ≤ 'z') || ('A' ≤ c && c ≤ 'Z') || ('0' ≤ c && c ≤ '9'))

/-- `FizzyClient.validateId`: rejects an empty identifier, then rejects any
identifier with a character outside `[a-zA-Z0-9]`. The error messages are
those of the source. -/
def validateId (id paramName : String) : Except String Unit :=
  if id = "" then
    Except.error ("Invalid " ++ paramName ++ ": must be a non-empty string")
  else if !(id.data.all isIdChar) then
    Except.error ("Invalid " ++ paramName ++ ": \x22" ++ id ++
      "\x22 contains invalid characters. Only alphanumeric characters are allowed.")
  else
    Except.ok ()

namespace FizzyClient

/-- `FizzyClient.getBoard`. -/
def getBoard (boardId : String) : Except String RequestSpec := do
  validateId boardId "boardId"
  pure ⟨"GET", "/boards/" ++ boardId, none⟩

/-- `FizzyClient.getCard`. -/
def getCard (cardId : String) : Except String RequestSpec := do
  validateId cardId "cardId"
  pure ⟨"GET", "/cards/" ++ cardId, none⟩

/-- Body helper: a JS object literal `{title, description}` where
`description` may be `undefined`; `JSON.stringify` omits `undefined`
properties. -/
def cardBodyFields (title : String) (description : Option String) : List (String × JValue) :=
  ("title", JValue.str title) ::
    (match description with
     | some d => [("description", JValue.str d)]
     | none => [])

/-- `FizzyClient.createCard`. -/
def createCard (boardId title : String) (description : Option String) :
    Except String RequestSpec := do
  validateId boardId "boardId"
  pure ⟨"POST", "/boards/" ++ boardId ++ "/cards",
    some (JValue.obj [("card", JValue.obj (cardBodyFields title description))])⟩

/-- Body helper for `updateCard`: `{title, description}` with both
properties possibly `undefined` (omitted by `JSON.stringify`). -/
def updateFields (title description : Option String) : List (String × JValue) :=
  (match title with
   | some t => [("title", JValue.str t)]
   | none => []) ++
  (match description with
   | some d => [("description", JValue.str d)]
   | none => [])

/-- `FizzyClient.updateCard`. -/
def updateCard (cardId : String) (title description : Option String) :
    Except String RequestSpec := do
  validateId cardId "cardId"
  pure ⟨"PATCH", "/cards/" ++ cardId,
    some (JValue.obj [("card", JValue.obj (updateFields title description))])⟩

/-- `FizzyClient.moveCardToColumn`: PATCH to the generic column-move
endpoint with body `{column_id: columnId}`. -/
def moveCardToColumn (cardId columnId : String) : Except String RequestSpec := do
  validateId cardId "cardId"
  validateId columnId "columnId"
  pure ⟨"PATCH", "/cards/" ++ cardId ++ "/column",
    some (JValue.obj [("column_id", JValue.str columnId)])⟩

/-- `FizzyClient.moveCardToDone`: POST to the closure endpoint, no body. -/
def moveCardToDone (cardId : String) : Except String RequestSpec := do
  validateId cardId "cardId"
  pure ⟨"POST", "/cards/" ++ cardId ++ "/closure", none⟩

/-- `FizzyClient.moveCardToNotNow`: POST to the not-now endpoint, no body. -/
def moveCardToNotNow (cardId : String) : Except String RequestSpec := do
  validateId cardId "cardId"
  pure ⟨"POST", "/cards/" ++ cardId ++ "/not_now", none⟩

/-- `FizzyClient.listColumns`. -/
def listColumns (boardId : String) : Except String RequestSpec := do
  validateId boardId "boardId"
  pure ⟨"GET", "/boards/" ++ boardId ++ "/columns", none⟩

/-- `FizzyClient.listComments`. -/
def listComments (cardId : String) : Except String RequestSpec := do
  validateId cardId "cardId"
  pure ⟨"GET", "/cards/" ++ cardId ++ "/comments", none⟩

/-- `FizzyClient.addComment`. -/
def addComment (cardId commentBody : String) : Except String RequestSpec := do
  validateId cardId "cardId"
  pure ⟨"POST", "/cards/" ++ cardId ++ "/comments",
    some (JValue.obj [("comment", JValue.obj [("body", JValue.str commentBody)])])⟩

/-- `FizzyClient.addTag`: POST to the taggings endpoint with body
`{tag_title: tagTitle}`. -/
def addTag (cardId tagTitle : String) : Except String RequestSpec := do
  validateId cardId "cardId"
  pure ⟨"POST", "/cards/" ++ cardId ++ "/taggings",
    some (JValue.obj [("tag_title", JValue.str tagTitle)])⟩

/-- `FizzyClient.removeTag`: written separately in the source, but issuing
the same POST to the (toggle) taggings endpoint. -/
def removeTag (cardId tagTitle : String) : Except String RequestSpec := do
  validateId cardId "cardId"
  pure ⟨"POST", "/cards/" ++ cardId ++ "/taggings",
    some (JValue.obj [("tag_title", JValue.str tagTitle)])⟩

end FizzyClient

/-- The `fizzy_move_card` case of the tool-call dispatcher: a three-way
branch on the exact string value of `column`. -/
def moveCardCase (cardId column : String) : Except String RequestSpec :=
  if column = "done" then FizzyClient.moveCardToDone cardId
  else if column = "not_now" then FizzyClient.moveCardToNotNow cardId
  else FizzyClient.moveCardToColumn cardId column

/-- `expectedType.endsWith('?')` for the one-character suffix used by the
schema language: the last character of `s` is `c`. -/
def lastCharIs (s : String) (c : Char) : Bool := s.data.getLast? == some c

/-- One pass of the `validateToolArgs` loop over the schema entries
(`Object.entries(schema)` in source order), producing the validated bag,
the list of missing required fields, and the list of wrong-type entries
(each already formatted with actual and expected type, as in the source). -/
def checkFields (a : JValue) : List (String × String) →
    List (String × JValue) × List String × List String
  | [] => ([], [], [])
  | (field, expectedType) :: rest =>
    let isOptional := lastCharIs expectedType '?'
    let baseType := if isOptional then String.mk expectedType.data.dropLast else expectedType
    let r := checkFields a rest
    match jlookup a field with
    | none => if isOptional then r else (r.1, field :: r.2.1, r.2.2)
    | some JValue.null => if isOptional then r else (r.1, field :: r.2.1, r.2.2)
    | some v =>
      if typeOf v ≠ baseType then
        (r.1, r.2.1,
          (field ++ " (expected " ++ baseType ++ ", got " ++ typeOf v ++ ")") :: r.2.2)
      else ((field, v) :: r.1, r.2.1, r.2.2)

/-- The failure message `validateToolArgs` builds from the missing-field
and wrong-type lists. -/
def validationMessage (toolName : String) (missing wrongType : List String) : String :=
  "Tool \x27" ++ toolName ++ "\x27 validation failed:" ++
    (if missing.isEmpty then "" else " Missing: " ++ String.intercalate ", " missing ++ ".") ++
    (if wrongType.isEmpty then ""
     else " Wrong type: " ++ String.intercalate ", " wrongType ++ ".")

/-- `validateToolArgs`: `args` is `Option JValue` because the raw arguments
of a tool call may be absent (`undefined`). The source first rejects a
falsy or non-object `args`, then walks the schema collecting all
violations, and fails once with a message listing them all. -/
def validateToolArgs (args : Option JValue) (schema : List (String × String))
    (toolName : String) : Except String (List (String × JValue)) :=
  match args with
  | none => Except.error ("Tool \x27" ++ toolName ++ "\x27 requires arguments object")
  | some a =>
    if jsFalsy a || typeOf a ≠ "object" then
      Except.error ("Tool \x27" ++ toolName ++ "\x27 requires arguments object")
    else
      let r := checkFields a schema
      if r.2.1.isEmpty && r.2.2.isEmpty then Except.ok r.1
      else Except.error (validationMessage toolName r.2.1 r.2.2)

/-- Specification-side view: a schema field reads as absent when the raw
bag binds it to nothing or to `null` (the source treats both alike). -/
def isNullishAt (a : JValue) (field : String) : Bool :=
  match jlookup a field with
  | none => true
  | some JValue.null => true
  | some _ => false

/-- The required base type of a schema entry (strips the `?` marker). -/
def schemaBaseType (expectedType : String) : String :=
  if lastCharIs expectedType '?' then String.mk expectedType.data.dropLast
  else expectedType

/-- Specification-side list of ALL missing required fields: the schema
entries that are required and whose value is absent or `null`, in schema
order. -/
def missingSpec (a : JValue) (schema : List (String × String)) : List String :=
  (schema.filter (fun p => !lastCharIs p.2 '?' && isNullishAt a p.1)).map Prod.fst

/-- Specification-side list of ALL wrong-type violations: the schema
entries whose value is present, non-null, and of a JS type other than the
declared base type, each formatted with actual and expected type. -/
def wrongTypeSpec (a : JValue) (schema : List (String × String)) : List String :=
  schema.filterMap (fun p =>
    match jlookup a p.1 with
    | none => none
    | some JValue.null => none
    | some v =>
      if typeOf v ≠ schemaBaseType p.2 then
        some (p.1 ++ " (expected " ++ schemaBaseType p.2 ++ ", got " ++ typeOf v ++ ")")
      else none)

/-- Digits of the capture group `(\d+)`: the maximal run of leading
decimal digits. -/
def takeDigits : List Char → List Char
  | [] => []
  | c :: cs => if c.isDigit then c :: takeDigits cs else []

/-- Try the regex `\/cards\/(\d+)` anchored at the head of `l`: the
literal `/cards/` followed by at least one digit; returns the capture. -/
def cardsMatchHere (l : List Char) : Option String :=
  if ['/', 'c', 'a', 'r', 'd', 's', '/'].isPrefixOf l then
    match takeDigits (l.drop 7) with
    | [] => none
    | ds => some (String.mk ds)
  else none

/-- Leftmost match of `\/cards\/(\d+)` (JS `String.prototype.match`
semantics: first position where the pattern matches, greedy capture). -/
def findCardsMatch : List Char → Option String
  | [] => none
  | c :: cs =>
    match cardsMatchHere (c :: cs) with
    | some ds => some ds
    | none => findCardsMatch cs

/-- `location.match(/\/cards\/(\d+)/)` with the capture extracted:
`some digits` on a match, `none` otherwise. -/
def extractCardNumber (location : String) : Option String :=
  findCardsMatch location.data

/-- An HTTP response as the gateway observes it: status code, optional
`Location` header, and the body text. -/
structure HttpResponse where
  status : Nat
  location : Option String
  body : String

/-- `response.ok` of the Fetch API: status in the range 200-299. -/
def responseOk (status : Nat) : Bool := 200 ≤ status && status ≤ 299

/-- The `card_number` property of the synthesized 201 payload: the
captured digit string, or `null` when the Location held no match. -/
def cardNumberValue (location : String) : JValue :=
  match extractCardNumber location with
  | some ds => JValue.str ds
  | none => JValue.null

/-- Response normalization of `FizzyClient.request`, parameterized over
the external `JSON.parse` (`parseJson body = none` models a parse
exception). Non-2xx throws; 201-with-Location synthesizes the creation
payload without reading the body; 201 without Location synthesizes
`{success: true}`; otherwise an empty body gives `{}`, a parsable body
gives the parsed value, and an unparsable body gives `{html: body}`. -/
def normalizeResponse (parseJson : String → Option JValue) (resp : HttpResponse) :
    Except String JValue :=
  if !responseOk resp.status then
    Except.error ("Fizzy API error (" ++ toString resp.status ++ "): " ++ resp.body)
  else if resp.status = 201 then
    match resp.location with
    | some location =>
      Except.ok (JValue.obj
        [("success", JValue.bool true),
         ("message", JValue.str "Card created"),
         ("card_number", cardNumberValue location),
         ("location", JValue.str location)])
    | none => Except.ok (JValue.obj [("success", JValue.bool true)])
  else if resp.body = "" then
    Except.ok (JValue.obj [])
  else
    match parseJson resp.body with
    | some v => Except.ok v
    | none => Except.ok (JValue.obj [("html", JValue.str resp.body)])

/-- Helper for the constructor's `baseUrl.replace(/\/$/, "")`, working on
the reversed character list: remove one leading slash if present. -/
def dropSlashRev : List Char → List Char
  | [] => []
  | c :: rest => if c = '/' then rest else c :: rest

/-- `baseUrl.replace(/\/$/, "")`: the regex is unanchored-at-most-once, so
exactly one trailing slash is removed when present. -/
def stripTrailingSlash (s : String) : String :=
  String.mk (dropSlashRev s.data.reverse).reverse

/-- Head-of-list slash test (used on reversed strings). -/
def headIsSlash : List Char → Bool
  | [] => false
  | c :: _ => c == '/'

/-- The string ends with `'/'`. -/
def endsWithSlash (s : String) : Bool := headIsSlash s.data.reverse

/-- Two leading slashes (used on reversed strings). -/
def twoSlashesRev : List Char → Bool
  | c :: d :: _ => c == '/' && d == '/'
  | _ => false

/-- The string ends with `"//"`. -/
def endsWithTwoSlashes (s : String) : Bool := twoSlashesRev s.data.reverse

/-- The immutable remote-endpoint configuration held by `FizzyClient`. -/
structure FizzyClient where
  baseUrl : String
  token : String
  accountId : String

/-- The `FizzyClient` constructor: normalizes the base URL with
`replace(/\/$/, "")` and stores token and account id unchanged. -/
def FizzyClient.make (baseUrl token accountId : String) : FizzyClient :=
  ⟨stripTrailingSlash baseUrl, token, accountId⟩

/-- The URL built by `FizzyClient.request`:
`` `${this.baseUrl}/${this.accountId}${path}` ``. -/
def FizzyClient.requestUrl (c : FizzyClient) (path : String) : String :=
  c.baseUrl ++ "/" ++ c.accountId ++ path

/-- One property of a tool's JSON input schema. -/
structure SchemaProp where
  name : String
  type : String
  description : String
  deriving DecidableEq

/-- One entry of the `TOOLS` array: name, description, and the input
schema (its properties and its `required` list). -/
structure Tool where
  name : String
  description : String
  properties : List SchemaProp
  required : List String
  deriving DecidableEq

/-- The `TOOLS` array of the source, transcribed entry by entry. -/
def TOOLS : List Tool :=
  [⟨"fizzy_list_boards", "List all Fizzy boards in the account", [], []⟩,
   ⟨"fizzy_get_board", "Get details of a specific Fizzy board",
     [⟨"board_id", "string", "The ID of the board"⟩], ["board_id"]⟩,
   ⟨"fizzy_create_board", "Create a new Fizzy board",
     [⟨"name", "string", "Name of the board"⟩,
      ⟨"description", "string", "Optional description of the board"⟩], ["name"]⟩,
   ⟨"fizzy_list_cards", "List cards. Optionally filter by board ID.",
     [⟨"board_id", "string", "Optional: filter cards by board ID"⟩], []⟩,
   ⟨"fizzy_get_card", "Get details of a specific card",
     [⟨"card_id", "string", "The ID of the card"⟩], ["card_id"]⟩,
   ⟨"fizzy_create_card", "Create a new card on a Fizzy board",
     [⟨"board_id", "string", "The ID of the board"⟩,
      ⟨"title", "string", "Title of the card"⟩,
      ⟨"description", "string", "Optional description of the card (supports HTML with links)"⟩],
     ["board_id", "title"]⟩,
   ⟨"fizzy_update_card", "Update an existing card",
     [⟨"card_id", "string", "The ID of the card"⟩,
      ⟨"title", "string", "New title for the card"⟩,
      ⟨"description", "string", "New description for the card (supports HTML with links)"⟩],
     ["card_id"]⟩,
   ⟨"fizzy_move_card",
     "Move a card to a different column (use \x27done\x27 or \x27not_now\x27 for special columns)",
     [⟨"card_id", "string", "The ID of the card"⟩,
      ⟨"column", "string",
        "Target column: \x27done\x27, \x27not_now\x27, or a column ID for custom columns"⟩],
     ["card_id", "column"]⟩,
   ⟨"fizzy_list_columns", "List all columns on a Fizzy board",
     [⟨"board_id", "string", "The ID of the board"⟩], ["board_id"]⟩,
   ⟨"fizzy_add_comment", "Add a comment to a card",
     [⟨"card_id", "string", "The ID of the card"⟩,
      ⟨"body", "string", "Comment text (supports HTML)"⟩], ["card_id", "body"]⟩,
   ⟨"fizzy_list_comments", "List all comments on a card",
     [⟨"card_id", "string", "The ID or number of the card"⟩], ["card_id"]⟩,
   ⟨"fizzy_add_tag", "Add a tag to a card. Creates the tag if it doesn\x27t exist.",
     [⟨"card_id", "string", "The ID or number of the card"⟩,
      ⟨"tag", "string", "Tag name to add"⟩], ["card_id", "tag"]⟩,
   ⟨"fizzy_remove_tag", "Remove a tag from a card",
     [⟨"card_id", "string", "The ID or number of the card"⟩,
      ⟨"tag", "string", "Tag name to remove"⟩], ["card_id", "tag"]⟩]

/-- `strContains hay needle`: `needle` occurs contiguously in `hay`
(decidable list-infix on the character lists). -/
def strContains (hay needle : String) : Bool :=
  decide (needle.data <:+: hay.data)

/-- The error message `validateId` produces for an invalid identifier. -/
def invalidIdMessage (id paramName : String) : String :=
  if id = "" then "Invalid " ++ paramName ++ ": must be a non-empty string"
  else "Invalid " ++ paramName ++ ": \x22" ++ id ++
    "\x22 contains invalid characters. Only alphanumeric characters are allowed."

/-- The keys of a normalized success payload that is an object, used to
discriminate payload shapes. -/
def okKeys : Except String JValue → List String
  | Except.ok (JValue.obj fields) => fields.map Prod.fst
  | _ => []


/-! ## Helper lemmas -/

theorem except_bind_ok {α : Type} (m : Except String Unit) (k : Unit → Except String α)
    (h : m = Except.ok ()) : (m >>= k) = k () := by
  rw [h]; rfl

theorem except_bind_error {α : Type} (m : Except String Unit) (k : Unit → Except String α)
    (e : String) (h : m = Except.error e) : (m >>= k) = Except.error e := by
  rw [h]; rfl

theorem validateId_invalid (id paramName : String)
    (h : id = "" ∨ id.data.all isIdChar = false) :
    validateId id paramName = Except.error (invalidIdMessage id paramName) := by
  rcases h with h | h
  · subst h; rfl
  · by_cases hid : id = ""
    · subst hid; rfl
    · unfold validateId invalidIdMessage
      rw [if_neg hid, if_neg hid, h]
      rfl

theorem strContains_sandwich (a b c : String) : strContains (a ++ b ++ c) b = true := by
  simp only [strContains, decide_eq_true_eq, String.data_append]
  exact ⟨a.data, c.data, by simp⟩

theorem strContains_append_right (a b : String) : strContains (a ++ b) b = true := by
  simp only [strContains, decide_eq_true_eq, String.data_append]
  exact ⟨a.data, [], by simp⟩

/-! ## C2 -/

/-- C2: with arguments that pass identifier validation, the move-card case
is a three-way branch on the exact string value of `column`: `"done"`
issues exactly one POST to the closure endpoint (never the column-move
endpoint), `"not_now"` one POST to the not-now endpoint, and any other
string one PATCH to the column endpoint with body `{column_id: column}`. -/
theorem C2_move_card_dispatch (cardId column : String)
    (hcard : validateId cardId "cardId" = Except.ok ())
    (hcol : validateId column "columnId" = Except.ok ()) :
    moveCardCase cardId "done" =
      Except.ok ⟨"POST", "/cards/" ++ cardId ++ "/closure", none⟩ ∧
    moveCardCase cardId "not_now" =
      Except.ok ⟨"POST", "/cards/" ++ cardId ++ "/not_now", none⟩ ∧
    (column ≠ "done" → column ≠ "not_now" →
      moveCardCase cardId column =
        Except.ok ⟨"PATCH", "/cards/" ++ cardId ++ "/column",
          some (JValue.obj [("column_id", JValue.str column)])⟩) := by
  refine ⟨?_, ?_, ?_⟩
  · show FizzyClient.moveCardToDone cardId = _
    unfold FizzyClient.moveCardToDone
    rw [except_bind_ok _ _ hcard]
    rfl
  · show FizzyClient.moveCardToNotNow cardId = _
    unfold FizzyClient.moveCardToNotNow
    rw [except_bind_ok _ _ hcard]
    rfl
  · intro h1 h2
    unfold moveCardCase
    rw [if_neg h1, if_neg h2]
    unfold FizzyClient.moveCardToColumn
    rw [except_bind_ok _ _ hcard, except_bind_ok _ _ hcol]
    rfl

/-- Witness for C2 at concrete inputs. -/
theorem C2_move_card_dispatch_witness :
    moveCardCase "7" "done" = Except.ok ⟨"POST", "/cards/7/closure", none⟩ ∧
    moveCardCase "7" "not_now" = Except.ok ⟨"POST", "/cards/7/not_now", none⟩ ∧
    ("col3" ≠ "done" → "col3" ≠ "not_now" →
      moveCardCase "7" "col3" =
        Except.ok ⟨"PATCH", "/cards/7/column",
          some (JValue.obj [("column_id", JValue.str "col3")])⟩) :=
  C2_move_card_dispatch "7" "col3" rfl rfl

/-! ## C8 -/

/-- C8: the tag-addition and tag-removal remote calls are extensionally
equal, and both issue the same POST to `/cards/{card_id}/taggings` with
body `{tag_title: t}`. -/
theorem C8_tag_ops_identical (cardId tagTitle : String)
    (h : validateId cardId "cardId" = Except.ok ()) :
    FizzyClient.addTag cardId tagTitle = FizzyClient.removeTag cardId tagTitle ∧
    FizzyClient.addTag cardId tagTitle =
      Except.ok ⟨"POST", "/cards/" ++ cardId ++ "/taggings",
        some (JValue.obj [("tag_title", JValue.str tagTitle)])⟩ := by
  refine ⟨rfl, ?_⟩
  unfold FizzyClient.addTag
  rw [except_bind_ok _ _ h]
  rfl

/-- Witness for C8 at concrete inputs. -/
theorem C8_tag_ops_identical_witness :
    FizzyClient.addTag "5" "urgent" = FizzyClient.removeTag "5" "urgent" ∧
    FizzyClient.addTag "5" "urgent" =
      Except.ok ⟨"POST", "/cards/5/taggings",
        some (JValue.obj [("tag_title", JValue.str "urgent")])⟩ :=
  C8_tag_ops_identical "5" "urgent" rfl

/-! ## C9 -/

theorem headIsSlash_dropSlashRev (l : List Char) (h : twoSlashesRev l = false) :
    headIsSlash (dropSlashRev l) = false := by
  match l with
  | [] => rfl
  | c :: rest =>
    by_cases hc : c = '/'
    · subst hc
      cases rest with
      | nil => rfl
      | cons d ds =>
        simp only [twoSlashesRev, beq_self_eq_true, Bool.true_and] at h
        simpa [dropSlashRev, headIsSlash] using h
    · simp [dropSlashRev, hc, headIsSlash]

/-- C9 counterexample: a base URL ending in two slashes keeps a trailing
slash after the constructor's normalization (`replace(/\/$/, "")` removes
only one). -/
theorem C9_counterexample :
    endsWithSlash (FizzyClient.make "http://localhost:3737//" "" "1").baseUrl = true := by
  decide

/-- C9 (amended): the constructor removes one trailing slash, so whenever
the input base URL does not end in `"//"` the stored base URL has no
trailing slash; the stored value is used unchanged in every request URL
`{baseURL}/{accountScope}{path}`. -/
theorem C9_base_url_normalized (base token acct : String)
    (h : endsWithTwoSlashes base = false) :
    endsWithSlash (FizzyClient.make base token acct).baseUrl = false ∧
    (∀ path, (FizzyClient.make base token acct).requestUrl path =
      stripTrailingSlash base ++ "/" ++ acct ++ path) := by
  refine ⟨?_, fun path => rfl⟩
  show endsWithSlash (stripTrailingSlash base) = false
  unfold endsWithSlash stripTrailingSlash
  rw [show (String.mk (dropSlashRev base.data.reverse).reverse).data
      = (dropSlashRev base.data.reverse).reverse from rfl]
  rw [List.reverse_reverse]
  exact headIsSlash_dropSlashRev _ h

/-- Witness for C9 (amended) at a concrete input. -/
theorem C9_base_url_normalized_witness :
    endsWithSlash (FizzyClient.make "http://localhost:3737/" "" "1").baseUrl = false ∧
    (∀ path, (FizzyClient.make "http://localhost:3737/" "" "1").requestUrl path =
      stripTrailingSlash "http://localhost:3737/" ++ "/" ++ "1" ++ path) :=
  C9_base_url_normalized "http://localhost:3737/" "" "1" (by decide)

/-! ## C4 -/

/-- C4: every identifier that is empty or contains a character outside
ASCII alphanumerics makes `validateId` fail with a message naming the
offending parameter (and, when non-empty, the value), and every client
operation that binds such an identifier into a URL path fails with that
error instead of producing a request. -/
theorem C4_invalid_identifier (id : String)
    (h : id = "" ∨ id.data.all isIdChar = false) :
    (∀ p, validateId id p = Except.error (invalidIdMessage id p) ∧
      strContains (invalidIdMessage id p) p = true ∧
      strContains (invalidIdMessage id p) id = true) ∧
    FizzyClient.getBoard id = Except.error (invalidIdMessage id "boardId") ∧
    FizzyClient.getCard id = Except.error (invalidIdMessage id "cardId") ∧
    (∀ title descr, FizzyClient.createCard id title descr =
      Except.error (invalidIdMessage id "boardId")) ∧
    (∀ title descr, FizzyClient.updateCard id title descr =
      Except.error (invalidIdMessage id "cardId")) ∧
    (∀ col, FizzyClient.moveCardToColumn id col =
      Except.error (invalidIdMessage id "cardId")) ∧
    FizzyClient.moveCardToDone id = Except.error (invalidIdMessage id "cardId") ∧
    FizzyClient.moveCardToNotNow id = Except.error (invalidIdMessage id "cardId") ∧
    FizzyClient.listColumns id = Except.error (invalidIdMessage id "boardId") ∧
    FizzyClient.listComments id = Except.error (invalidIdMessage id "cardId") ∧
    (∀ b, FizzyClient.addComment id b = Except.error (invalidIdMessage id "cardId")) ∧
    (∀ t, FizzyClient.addTag id t = Except.error (invalidIdMessage id "cardId")) ∧
    (∀ t, FizzyClient.removeTag id t = Except.error (invalidIdMessage id "cardId")) := by
  have hv : ∀ p, validateId id p = Except.error (invalidIdMessage id p) :=
    fun p => validateId_invalid id p h
  refine ⟨?_, ?_, ?_, ?_, ?_, ?_, ?_, ?_, ?_, ?_, ?_, ?_, ?_⟩
  · intro p
    refine ⟨hv p, ?_, ?_⟩
    · unfold invalidIdMessage
      by_cases hid : id = ""
      · rw [if_pos hid]
        exact strContains_sandwich "Invalid " p ": must be a non-empty string"
      · rw [if_neg hid]
        simp only [strContains, decide_eq_true_eq, String.data_append]
        exact ⟨"Invalid ".data, ": \x22".data ++ id.data ++
          "\x22 contains invalid characters. Only alphanumeric characters are allowed.".data,
          by simp⟩
    · unfold invalidIdMessage
      by_cases hid : id = ""
      · rw [if_pos hid, hid]
        simp [strContains]
      · rw [if_neg hid]
        simp only [strContains, decide_eq_true_eq, String.data_append]
        exact ⟨"Invalid ".data ++ p.data ++ ": \x22".data,
          "\x22 contains invalid characters. Only alphanumeric characters are allowed.".data,
          by simp⟩
  · unfold FizzyClient.getBoard; rw [except_bind_error _ _ _ (hv "boardId")]
  · unfold FizzyClient.getCard; rw [except_bind_error _ _ _ (hv "cardId")]
  · intro title descr
    unfold FizzyClient.createCard; rw [except_bind_error _ _ _ (hv "boardId")]
  · intro title descr
    unfold FizzyClient.updateCard; rw [except_bind_error _ _ _ (hv "cardId")]
  · intro col
    unfold FizzyClient.moveCardToColumn; rw [except_bind_error _ _ _ (hv "cardId")]
  · unfold FizzyClient.moveCardToDone; rw [except_bind_error _ _ _ (hv "cardId")]
  · unfold FizzyClient.moveCardToNotNow; rw [except_bind_error _ _ _ (hv "cardId")]
  · unfold FizzyClient.listColumns; rw [except_bind_error _ _ _ (hv "boardId")]
  · unfold FizzyClient.listComments; rw [except_bind_error _ _ _ (hv "cardId")]
  · intro b
    unfold FizzyClient.addComment; rw [except_bind_error _ _ _ (hv "cardId")]
  · intro t
    unfold FizzyClient.addTag; rw [except_bind_error _ _ _ (hv "cardId")]
  · intro t
    unfold FizzyClient.removeTag; rw [except_bind_error _ _ _ (hv "cardId")]

/-- Witness for C4 at the concrete invalid identifier `"abc/123"`. -/
theorem C4_invalid_identifier_witness :
    ((∀ p, validateId "abc/123" p = Except.error (invalidIdMessage "abc/123" p) ∧
      strContains (invalidIdMessage "abc/123" p) p = true ∧
      strContains (invalidIdMessage "abc/123" p) "abc/123" = true) ∧
    FizzyClient.getBoard "abc/123" = Except.error (invalidIdMessage "abc/123" "boardId") ∧
    FizzyClient.getCard "abc/123" = Except.error (invalidIdMessage "abc/123" "cardId") ∧
    (∀ title descr, FizzyClient.createCard "abc/123" title descr =
      Except.error (invalidIdMessage "abc/123" "boardId")) ∧
    (∀ title descr, FizzyClient.updateCard "abc/123" title descr =
      Except.error (invalidIdMessage "abc/123" "cardId")) ∧
    (∀ col, FizzyClient.moveCardToColumn "abc/123" col =
      Except.error (invalidIdMessage "abc/123" "cardId")) ∧
    FizzyClient.moveCardToDone "abc/123" = Except.error (invalidIdMessage "abc/123" "cardId") ∧
    FizzyClient.moveCardToNotNow "abc/123" = Except.error (invalidIdMessage "abc/123" "cardId") ∧
    FizzyClient.listColumns "abc/123" = Except.error (invalidIdMessage "abc/123" "boardId") ∧
    FizzyClient.listComments "abc/123" = Except.error (invalidIdMessage "abc/123" "cardId") ∧
    (∀ b, FizzyClient.addComment "abc/123" b =
      Except.error (invalidIdMessage "abc/123" "cardId")) ∧
    (∀ t, FizzyClient.addTag "abc/123" t =
      Except.error (invalidIdMessage "abc/123" "cardId")) ∧
    (∀ t, FizzyClient.removeTag "abc/123" t =
      Except.error (invalidIdMessage "abc/123" "cardId"))) :=
  C4_invalid_identifier "abc/123" (Or.inr (by decide))

/-! ## C6 -/

/-- C6: every non-2xx response makes the gateway fail with a `RemoteError`
whose message carries the numeric status code and the raw body text; no
normalized success payload is produced. -/
theorem C6_remote_error (parse : String → Option JValue) (status : Nat)
    (loc : Option String) (body : String) (h : responseOk status = false) :
    normalizeResponse parse ⟨status, loc, body⟩ =
      Except.error ("Fizzy API error (" ++ toString status ++ "): " ++ body) ∧
    strContains ("Fizzy API error (" ++ toString status ++ "): " ++ body)
      (toString status) = true ∧
    strContains ("Fizzy API error (" ++ toString status ++ "): " ++ body) body = true := by
  refine ⟨?_, ?_, strContains_append_right _ _⟩
  · unfold normalizeResponse
    simp only [h]
    rfl
  · simp only [strContains, decide_eq_true_eq, String.data_append]
    exact ⟨"Fizzy API error (".data, "): ".data ++ body.data, by simp⟩

/-- Witness for C6 at a simulated 404 with body `"not found"`. -/
theorem C6_remote_error_witness :
    (normalizeResponse (fun _ => none) ⟨404, none, "not found"⟩ =
      Except.error ("Fizzy API error (" ++ toString 404 ++ "): " ++ "not found") ∧
    strContains ("Fizzy API error (" ++ toString 404 ++ "): " ++ "not found")
      (toString 404) = true ∧
    strContains ("Fizzy API error (" ++ toString 404 ++ "): " ++ "not found")
      "not found" = true) :=
  C6_remote_error (fun _ => none) 404 none "not found" (by decide)

/-! ## C1 -/

/-- C1 counterexample: the synthesized creation payload keys the extracted
digits under `card_number`, not `cardNumber` as the claim states, so the
claimed object is not the normalization result for Location
`/1/cards/42.json` with an empty body. -/
theorem C1_counterexample :
    normalizeResponse (fun _ => none) ⟨201, some "/1/cards/42.json", ""⟩ ≠
      Except.ok (JValue.obj
        [("success", JValue.bool true),
         ("message", JValue.str "Card created"),
         ("cardNumber", JValue.str "42"),
         ("location", JValue.str "/1/cards/42.json")]) := by
  intro hcontra
  exact absurd (congrArg okKeys hcontra) (by decide)

/-- C1 (amended): a 201 response with a Location header is normalized,
without reading the body or the JSON parser, to
`{success: true, message: "Card created", card_number: d, location: l}`
where `d` is the digit string captured by the first occurrence of
`/cards/<digits>` in `l` (or `null` when absent); in particular Location
`/1/cards/42.json` with an empty body yields `card_number = "42"`. -/
theorem C1_created_with_location (parse : String → Option JValue) (body l : String) :
    normalizeResponse parse ⟨201, some l, body⟩ =
      Except.ok (JValue.obj
        [("success", JValue.bool true),
         ("message", JValue.str "Card created"),
         ("card_number", cardNumberValue l),
         ("location", JValue.str l)]) ∧
    normalizeResponse (fun _ => none) ⟨201, some "/1/cards/42.json", ""⟩ =
      Except.ok (JValue.obj
        [("success", JValue.bool true),
         ("message", JValue.str "Card created"),
         ("card_number", JValue.str "42"),
         ("location", JValue.str "/1/cards/42.json")]) :=
  ⟨rfl, rfl⟩

/-! ## C5 -/

/-- C5: a 201 without Location normalizes to `{success: true}`; any other
2xx with an empty body to `{}`; any other 2xx whose non-empty body parses
as JSON to the parsed value; and any other 2xx whose non-empty body fails
to parse to `{html: body}`. -/
theorem C5_other_success (parse : String → Option JValue) (status : Nat)
    (loc : Option String) (body : String) (v : JValue)
    (hok : responseOk status = true) (h201 : status ≠ 201) :
    (normalizeResponse parse ⟨201, none, body⟩ =
      Except.ok (JValue.obj [("success", JValue.bool true)])) ∧
    (normalizeResponse parse ⟨status, loc, ""⟩ = Except.ok (JValue.obj [])) ∧
    (body ≠ "" → parse body = some v →
      normalizeResponse parse ⟨status, loc, body⟩ = Except.ok v) ∧
    (body ≠ "" → parse body = none →
      normalizeResponse parse ⟨status, loc, body⟩ =
        Except.ok (JValue.obj [("html", JValue.str body)])) := by
  refine ⟨rfl, ?_, ?_, ?_⟩
  · simp [normalizeResponse, hok, h201]
  · intro hb hp
    simp [normalizeResponse, hok, h201, hb, hp]
  · intro hb hp
    simp [normalizeResponse, hok, h201, hb, hp]

/-- Witness for C5 at a simulated 200 response. -/
theorem C5_other_success_witness :
    (normalizeResponse (fun s => if s = "[1]" then some (JValue.arr [JValue.num 1]) else none)
        ⟨201, none, "[1]"⟩ =
      Except.ok (JValue.obj [("success", JValue.bool true)])) ∧
    (normalizeResponse (fun s => if s = "[1]" then some (JValue.arr [JValue.num 1]) else none)
        ⟨200, none, ""⟩ = Except.ok (JValue.obj [])) ∧
    (("[1]" : String) ≠ "" →
      (fun s => if s = "[1]" then some (JValue.arr [JValue.num 1]) else none) "[1]" =
        some (JValue.arr [JValue.num 1]) →
      normalizeResponse (fun s => if s = "[1]" then some (JValue.arr [JValue.num 1]) else none)
        ⟨200, none, "[1]"⟩ = Except.ok (JValue.arr [JValue.num 1])) ∧
    (("[1]" : String) ≠ "" →
      (fun s => if s = "[1]" then some (JValue.arr [JValue.num 1]) else none) "[1]" = none →
      normalizeResponse (fun s => if s = "[1]" then some (JValue.arr [JValue.num 1]) else none)
        ⟨200, none, "[1]"⟩ = Except.ok (JValue.obj [("html", JValue.str "[1]")])) :=
  C5_other_success (fun s => if s = "[1]" then some (JValue.arr [JValue.num 1]) else none)
    200 none "[1]" (JValue.arr [JValue.num 1]) rfl (by decide)

/-! ## C7 -/

/-- C7 counterexample: the registry declares 13 operations, not fourteen
(the enumerated families list/get/create boards, list/get/create/update/
move cards, list columns, list/add comments, add/remove tags come to 13). -/
theorem C7_counterexample : TOOLS.length ≠ 14 := by decide

/-- C7 (amended): the registry declares exactly thirteen operations
(list/get/create boards; list/get/create/update/move cards; list columns;
list/add comments; add/remove tags), each with a unique name, a non-empty
description, every schema field typed `string`, and every required field
among the declared fields. -/
theorem C7_registry :
    TOOLS.length = 13 ∧
    (TOOLS.map Tool.name).Nodup ∧
    (∀ t ∈ TOOLS, (∀ p ∈ t.properties, p.type = "string") ∧
      t.description ≠ "" ∧
      (∀ r ∈ t.required, r ∈ t.properties.map SchemaProp.name)) := by
  refine ⟨rfl, by decide, by decide⟩

/-! ## C3 -/

theorem checkFields_eq_spec (a : JValue) (schema : List (String × String)) :
    (checkFields a schema).2.1 = missingSpec a schema ∧
    (checkFields a schema).2.2 = wrongTypeSpec a schema := by
  induction schema with
  | nil => exact ⟨rfl, rfl⟩
  | cons p rest ih =>
    obtain ⟨field, ety⟩ := p
    obtain ⟨ih1, ih2⟩ := ih
    by_cases hopt : lastCharIs ety '?' <;>
      cases hl : jlookup a field with
      | none =>
        constructor <;>
          simp [checkFields, missingSpec, wrongTypeSpec, isNullishAt, hl, hopt,
            List.filter_cons, List.filterMap_cons, ih1, ih2, missingSpec]
      | some v =>
        cases v <;> constructor <;>
          simp [checkFields, missingSpec, wrongTypeSpec, isNullishAt, schemaBaseType,
            hl, hopt, List.filter_cons, List.filterMap_cons, ih1, ih2, typeOf] <;>
          split <;>
          simp [ih1, ih2, missingSpec, wrongTypeSpec]

/-- C3: when the raw argument bag produces any violation, validation fails
once with a message rendering the complete list of missing required fields
and the complete list of wrong-type fields (each with actual and expected
type), and the call pipeline short-circuits: no request is produced for
any continuation. -/
theorem C3_validation_enumerates (a : JValue) (schema : List (String × String))
    (toolName : String) (k : List (String × JValue) → Except String RequestSpec)
    (hobj : typeOf a = "object") (hfalsy : jsFalsy a = false)
    (hfail : missingSpec a schema ≠ [] ∨ wrongTypeSpec a schema ≠ []) :
    validateToolArgs (some a) schema toolName =
      Except.error
        (validationMessage toolName (missingSpec a schema) (wrongTypeSpec a schema)) ∧
    (validateToolArgs (some a) schema toolName >>= k) =
      Except.error
        (validationMessage toolName (missingSpec a schema) (wrongTypeSpec a schema)) := by
  obtain ⟨hm, hw⟩ := checkFields_eq_spec a schema
  have hempty : ((checkFields a schema).2.1.isEmpty &&
      (checkFields a schema).2.2.isEmpty) = false := by
    rcases hfail with hf | hf
    · simp [hm, List.isEmpty_iff, hf]
    · simp [hw, List.isEmpty_iff, hf]
  have hmain : validateToolArgs (some a) schema toolName =
      Except.error
        (validationMessage toolName (missingSpec a schema) (wrongTypeSpec a schema)) := by
    unfold validateToolArgs
    rw [hm, hw] at hempty
    simp [hfalsy, hobj, hm, hw, hempty]
  exact ⟨hmain, by rw [hmain]; rfl⟩

/-- Witness for C3: a bag missing required `a` and binding `b` to a
number; the message lists both violations and the continuation is never
reached. -/
theorem C3_validation_enumerates_witness :
    validateToolArgs (some (JValue.obj [("b", JValue.num 5)]))
        [("a", "string"), ("b", "string"), ("c", "string?")] "fizzy_get_card" =
      Except.error
        (validationMessage "fizzy_get_card"
          (missingSpec (JValue.obj [("b", JValue.num 5)])
            [("a", "string"), ("b", "string"), ("c", "string?")])
          (wrongTypeSpec (JValue.obj [("b", JValue.num 5)])
            [("a", "string"), ("b", "string"), ("c", "string?")])) ∧
    (validateToolArgs (some (JValue.obj [("b", JValue.num 5)]))
        [("a", "string"), ("b", "string"), ("c", "string?")] "fizzy_get_card" >>=
      fun _ => FizzyClient.getCard "x") =
      Except.error
        (validationMessage "fizzy_get_card"
          (missingSpec (JValue.obj [("b", JValue.num 5)])
            [("a", "string"), ("b", "string"), ("c", "string?")])
          (wrongTypeSpec (JValue.obj [("b", JValue.num 5)])
            [("a", "string"), ("b", "string"), ("c", "string?")])) :=
  C3_validation_enumerates (JValue.obj [("b", JValue.num 5)])
    [("a", "string"), ("b", "string"), ("c", "string?")] "fizzy_get_card"
    (fun _ => FizzyClient.getCard "x") rfl rfl (Or.inl (by decide))

/-! ## C10 -/

/-- C10: a field bound to `null` is treated exactly like an absent field:
under a required schema entry it joins the missing-field list (never the
wrong-type list), and under an optional entry it is silently dropped from
the validated bag, leaving validation entirely unchanged. -/
theorem C10_null_like_absent (a : JValue) (rest : List (String × String))
    (f tyReq tyOpt : String)
    (h : jlookup a f = none ∨ jlookup a f = some JValue.null)
    (hreq : lastCharIs tyReq '?' = false)
    (hopt : lastCharIs tyOpt '?' = true) :
    checkFields a ((f, tyReq) :: rest) =
      ((checkFields a rest).1, f :: (checkFields a rest).2.1,
        (checkFields a rest).2.2) ∧
    checkFields a ((f, tyOpt) :: rest) = checkFields a rest := by
  constructor <;> rcases h with h | h <;> simp [checkFields, h, hreq, hopt]

/-- Witness for C10: the bag `{x: null}` with required and optional
schema entries for `x`. -/
theorem C10_null_like_absent_witness :
    checkFields (JValue.obj [("x", JValue.null)]) [("x", "string"), ("y", "string")] =
      ((checkFields (JValue.obj [("x", JValue.null)]) [("y", "string")]).1,
        "x" :: (checkFields (JValue.obj [("x", JValue.null)]) [("y", "string")]).2.1,
        (checkFields (JValue.obj [("x", JValue.null)]) [("y", "string")]).2.2) ∧
    checkFields (JValue.obj [("x", JValue.null)]) [("x", "string?"), ("y", "string")] =
      checkFields (JValue.obj [("x", JValue.null)]) [("y", "string")] := by
  have happ := C10_null_like_absent (JValue.obj [("x", JValue.null)]) [("y", "string")]
    "x" "string" "string?" (Or.inr rfl) rfl rfl
  exact happ
